import Mathlib

/-!
Verification development for the fctools VM lifecycle engine.

This file gives a shallow embedding, in Lean 4, of the parts of the
fctools source that the verified claims are about:

 - the process handle over attached (runtime child) and detached (pidfd)
   processes, from src/vmm/executor/process_handle.rs;
 - the snapshot value, from src/vm/snapshot.rs;
 - the path-mapping part of executor preparation, from
   src/vmm/executor/unrestricted.rs and src/vmm/executor/jailed.rs;
 - the VM state machine, its Management API surface, boot sequence and
   shutdown loop, from src/vm/mod.rs and src/vm/api.rs.

Asynchronous I/O is modelled by threading explicit state and by an
environment value that fixes the outcome of every external interaction
(HTTP responses, process signals, exit observation).  Paths are modelled
as strings, raw process exit statuses as integers.
-/

namespace Fctools

deriving instance DecidableEq for Except

/-!
## Process handle

Embedded from src/vmm/executor/process_handle.rs.  A handle is either
attached (a runtime child process, with its three standard pipes unless
they were dropped at spawn time) or detached (pidfd-backed, with a
one-shot channel fed by a background task that awaits pidfd readability
and a memoized exit status).

The attached arm delegates to the async runtime, an external
collaborator: its child process caches the exit status after the first
successful wait, and start_kill fails once the child has been reaped.
That contract is built into the ChildProc model below.
-/

/-- Model of the runtime child process that backs an attached handle.
osStatus is the raw status the operating system reports when the process
terminates; osExited says whether it has terminated yet; reaped is the
runtime-cached exit status after the first successful wait; the three
pipe fields hold the pipe streams until they are taken. -/
structure ChildProc where
  osStatus : Int
  osExited : Bool
  reaped : Option Int
  stdout : Option Unit
  stderr : Option Unit
  stdin : Option Unit
  deriving DecidableEq

/-- Errors from pipe extraction, from ProcessHandlePipesError. -/
inductive ProcessHandlePipesError
  | ProcessIsDetached
  | PipesWereDropped
  | PipesWereAlreadyTaken
  deriving DecidableEq

/-- The three standard streams extracted from an attached handle. The
stream values themselves carry no data relevant to the claims. -/
structure ProcessHandlePipes where
  stdout : Unit
  stderr : Unit
  stdin : Unit
  deriving DecidableEq

/-- Model of ProcessHandle / ProcessHandleInner. For the detached arm,
rxFired says whether the background task has already sent on the
one-shot channel (it sends a unit value on pidfd readability), and
exited is the memoized exit status. -/
inductive ProcessHandle
  | attached (child : ChildProc) (pipesDropped : Bool)
  | detached (rxFired : Bool) (exited : Option Int)
  deriving DecidableEq

/-- ProcessHandle::wait.  The attached arm delegates to the runtime
child (blocking until the process terminates, then caching the status).
The detached arm returns the memoized status if present; otherwise it
awaits the one-shot channel, whose payload is a unit value, then builds
ExitStatus::from_raw(0) and memoizes it.  I/O failures of the underlying
wait are abstracted away: in this model wait always produces a status. -/
def ProcessHandle.wait : ProcessHandle → Int × ProcessHandle
  | .attached child pipesDropped =>
    let status := child.reaped.getD child.osStatus
    (status, .attached { child with osExited := true, reaped := some status } pipesDropped)
  | .detached rxFired exited =>
    match exited with
    | some status => (status, .detached rxFired exited)
    | none => (0, .detached true (some 0))

/-- ProcessHandle::try_wait.  The detached arm returns the memoized
status if present; otherwise it polls the one-shot channel and, when the
channel has fired, memoizes ExitStatus::from_raw(0). -/
def ProcessHandle.tryWait : ProcessHandle → Option Int × ProcessHandle
  | .attached child pipesDropped =>
    match child.reaped with
    | some status => (some status, .attached child pipesDropped)
    | none =>
      if child.osExited then
        (some child.osStatus, .attached { child with reaped := some child.osStatus } pipesDropped)
      else
        (none, .attached child pipesDropped)
  | .detached rxFired exited =>
    match exited with
    | some status => (some status, .detached rxFired exited)
    | none =>
      if rxFired then (some 0, .detached rxFired (some 0))
      else (none, .detached rxFired exited)

/-- ProcessHandle::send_sigkill.  The attached arm uses the runtime
start_kill, which fails once the child has been reaped.  The detached
arm fails when the memoized exit status is set, and otherwise issues
pidfd_send_signal(SIGKILL); syscall failure is abstracted away. -/
def ProcessHandle.sendSigkill : ProcessHandle → Except String Unit
  | .attached child _ =>
    match child.reaped with
    | some _ => .error "process already reaped"
    | none => .ok ()
  | .detached _ exited =>
    match exited with
    | some _ => .error "Trying to send SIGKILL to exited process"
    | none => .ok ()

/-- ProcessHandle::get_pipes.  Mirrors the source: a detached handle
fails with ProcessIsDetached; an attached handle with dropped pipes
fails with PipesWereDropped; otherwise the three streams are taken one
by one, failing with PipesWereAlreadyTaken when one is absent. -/
def ProcessHandle.getPipes : ProcessHandle → Except ProcessHandlePipesError ProcessHandlePipes × ProcessHandle
  | .detached rxFired exited => (.error .ProcessIsDetached, .detached rxFired exited)
  | .attached child pipesDropped =>
    if pipesDropped then (.error .PipesWereDropped, .attached child pipesDropped)
    else
      match child.stdout with
      | none => (.error .PipesWereAlreadyTaken, .attached { child with stdout := none } pipesDropped)
      | some o =>
        let child1 := { child with stdout := none }
        match child1.stderr with
        | none => (.error .PipesWereAlreadyTaken, .attached { child1 with stderr := none } pipesDropped)
        | some e =>
          let child2 := { child1 with stderr := none }
          match child2.stdin with
          | none => (.error .PipesWereAlreadyTaken, .attached { child2 with stdin := none } pipesDropped)
          | some i =>
            (.ok { stdout := o, stderr := e, stdin := i }, .attached { child2 with stdin := none } pipesDropped)

/-- Modelled from the spec: the outcome of reading /proc/pid/stat for a
process that has just exited.  readOk says whether the read and parse
succeed; rawStatus is the raw exit status recoverable from the stat
line.  The source under src/ never performs such a read, so this record
exists only to state the spec side of the exit-status-recovery claim. -/
structure ProcStatRead where
  readOk : Bool
  rawStatus : Int
  deriving DecidableEq

/-- Modelled from the spec: the exit status the specification claims the
background task recovers and sends through the one-shot channel, which
wait then returns: the raw status read from /proc/pid/stat, with 0
reported only when the read or parse fails. -/
def specRecoveredStatus (read : ProcStatRead) : Int :=
  if read.readOk then read.rawStatus else 0

/-!
## Snapshot value

Embedded from src/vm/snapshot.rs.  The two concurrent filesystem
operations used by copy and move_out are modelled by passing their
outcomes in; try_join returns an error when either operation fails (the
leftmost error in this model), and the recorded paths are rewritten only
after both succeed.
-/

/-- Errors surfaced by the filesystem backend; the payload of the
underlying I/O error is abstracted to a message string. -/
inductive FsBackendError
  | IoFailure (message : String)
  deriving DecidableEq

/-- Boot source record of the configuration data, from src/vm/models.
Only the path fields are kept; the remaining fields play no role in the
claims. -/
structure BootSource where
  kernelImagePath : String
  initrdPath : Option String
  deriving DecidableEq

/-- Drive record: only the drive id is relevant to the claims. -/
structure Drive where
  driveId : String
  deriving DecidableEq

/-- Network interface record: only the interface id is relevant. -/
structure NetworkInterface where
  ifaceId : String
  deriving DecidableEq

/-- VmConfigurationData from src/vm/configuration.rs.  Device payloads
other than identifiers are abstracted to unit values, since the claims
concern only which devices are present. -/
structure VmConfigurationData where
  bootSource : BootSource
  drives : List Drive
  machineConfiguration : Unit
  cpuTemplate : Option Unit
  networkInterfaces : List NetworkInterface
  balloonDevice : Option Unit
  vsockDevice : Option Unit
  loggerSystem : Option Unit
  metricsSystem : Option Unit
  mmdsConfiguration : Option Unit
  entropyDevice : Option Unit
  deriving DecidableEq

/-- SnapshotData from src/vm/snapshot.rs. -/
structure SnapshotData where
  snapshotPath : String
  memFilePath : String
  configurationData : VmConfigurationData
  deriving DecidableEq

/-- SnapshotData::copy.  copySnapshotResult and copyMemResult are the
outcomes of the two concurrent FsBackend::copy calls joined by try_join;
on success both recorded paths are rewritten to the new destinations,
and on failure the data is left untouched. -/
def SnapshotData.copy (s : SnapshotData) (copySnapshotResult copyMemResult : Except FsBackendError Unit)
    (newSnapshotPath newMemFilePath : String) : Except FsBackendError Unit × SnapshotData :=
  match copySnapshotResult, copyMemResult with
  | .ok (), .ok () =>
    (.ok (), { s with snapshotPath := newSnapshotPath, memFilePath := newMemFilePath })
  | .error e, _ => (.error e, s)
  | _, .error e => (.error e, s)

/-- SnapshotData::move_out.  Structurally identical to copy, with the
two concurrent operations being FsBackend::rename_file calls. -/
def SnapshotData.moveOut (s : SnapshotData) (renameSnapshotResult renameMemResult : Except FsBackendError Unit)
    (newSnapshotPath newMemFilePath : String) : Except FsBackendError Unit × SnapshotData :=
  match renameSnapshotResult, renameMemResult with
  | .ok (), .ok () =>
    (.ok (), { s with snapshotPath := newSnapshotPath, memFilePath := newMemFilePath })
  | .error e, _ => (.error e, s)
  | _, .error e => (.error e, s)

/-!
## Executor path mappings

Embedded from src/vmm/executor/unrestricted.rs and
src/vmm/executor/jailed.rs.  Only the outer-to-inner path mapping that
prepare returns is modelled; the filesystem staging around it (existence
checks, chown, file transfer) does not affect which mapping is built, it
can only abort prepare with an error, which the claims condition on.
Paths are strings; the hash map is modelled as an association list with
replace-on-collision insertion.
-/

/-- Errors of a jail renamer, from src/vmm/executor/jailed.rs. -/
inductive JailRenamerError
  | PathHasNoFilename (path : String)
  deriving DecidableEq

/-- Finite map insertion with the overwrite semantics of HashMap::insert:
a pair with an existing key replaces it, otherwise the pair is added. -/
def mapInsert : List (String × String) → String → String → List (String × String)
  | [], key, value => [(key, value)]
  | kv :: rest, key, value =>
    if kv.fst = key then (key, value) :: rest else kv :: mapInsert rest key value

/-- Finite map lookup: first pair with the given key. -/
def mapLookup (m : List (String × String)) (key : String) : Option String :=
  (m.find? fun kv => kv.fst == key).map fun kv => kv.snd

/-- The keys of a finite map. -/
def mapKeys (m : List (String × String)) : List String :=
  m.map fun kv => kv.fst

/-- Collecting an iterator of pairs into a hash map, as done by the
unrestricted prepare with outer_paths.into_iter().map(p to (p, p)). -/
def collectPairs : List (String × String) → List (String × String) → List (String × String)
  | [], m => m
  | (key, value) :: rest, m => collectPairs rest (mapInsert m key value)

/-- The path mapping returned by UnrestrictedVmmExecutor::prepare on
success: the identity mapping on the input outer paths. -/
def unrestrictedPathMappings (outerPaths : List String) : List (String × String) :=
  collectPairs (outerPaths.map fun p => (p, p)) []

/-- Splitting a character list on slashes, accumulating the current
component; mirrors String::split on the path separator. -/
def pathComponentsAux : List Char → String → List String
  | [], acc => [acc]
  | c :: rest, acc =>
    if c = '/' then acc :: pathComponentsAux rest "" else pathComponentsAux rest (acc.push c)

/-- Model of Rust Path::file_name on Unix path strings: the final
normal component, none when there is no component or the path ends in a
parent-directory component. -/
def pathFileName (p : String) : Option String :=
  let comps := (pathComponentsAux p.data "").filter fun c => !(c == "") && !(c == ".")
  match comps.getLast? with
  | none => none
  | some c => if c = ".." then none else some c

/-- FlatJailRenamer::rename_for_jail: the inner path is a slash followed
by the file name of the outer path, and the renamer fails with
PathHasNoFilename when the outer path has no final component. -/
def flatRenameForJail (outerPath : String) : Except JailRenamerError String :=
  match pathFileName outerPath with
  | none => .error (.PathHasNoFilename outerPath)
  | some name => .ok ("/" ++ name)

/-- Whether a path string is absolute. -/
def isAbsolutePath (p : String) : Bool :=
  match p.data with
  | [] => false
  | c :: _ => c == '/'

/-- The path-mapping loop of JailedVmmExecutor::prepare: for each outer
path in order, the renamer computes the inner path (a renamer error
aborts the whole prepare), and the pair is inserted into the map. -/
def jailedPathMappingsAux (rename : String → Except JailRenamerError String) :
    List String → List (String × String) → Except JailRenamerError (List (String × String))
  | [], m => .ok m
  | outerPath :: rest, m =>
    match rename outerPath with
    | .error e => .error e
    | .ok innerPath => jailedPathMappingsAux rename rest (mapInsert m outerPath innerPath)

/-- The path mapping returned by JailedVmmExecutor::prepare on success. -/
def jailedPathMappings (rename : String → Except JailRenamerError String)
    (outerPaths : List String) : Except JailRenamerError (List (String × String)) :=
  jailedPathMappingsAux rename outerPaths []

/-!
## VM state machine and Management API surface

Embedded from src/vm/mod.rs (the Vm structure, derived state, state
checks, boot sequence and shutdown loop) and src/vm/api.rs (the VmApi
operations).  The VMM process supervisor (src/vmm/process.rs is not
under src/; only its callers are) is modelled from the spec, section
4.5: it holds the process state used to derive the VM state, and
send_api_request forwards an HTTP request over the API socket, which we
record as an effect and answer from the environment.

Elements abstracted in this model, none of which influence the claims:
serde JSON serialization always succeeds and response bodies stand for
their deserialized values; the HTTP transport always delivers the
request and a response (transport failures would surface as distinct
error variants before any state change beyond the recorded request);
filesystem staging in Vm::prepare and Vm::start is not modelled.
-/

/-- Modelled from the spec: the VmmProcess state machine of section
4.5, AwaitingPrepare to AwaitingStart to Started to Exited or Crashed.
These are exactly the variants matched by Vm::state in src/vm/mod.rs. -/
inductive VmmProcessState
  | AwaitingPrepare
  | AwaitingStart
  | Started
  | Exited
  | Crashed (exitStatus : Int)
  deriving DecidableEq

/-- VmState from src/vm/mod.rs. -/
inductive VmState
  | NotStarted
  | Running
  | Paused
  | Exited
  | Crashed (exitStatus : Int)
  deriving DecidableEq

/-- Action type carried by PUT /actions request bodies. -/
inductive ReprActionType
  | FlushMetrics
  | InstanceStart
  deriving DecidableEq

/-- Target state carried by PATCH /vm request bodies. -/
inductive ReprUpdatedState
  | Paused
  | Resumed
  deriving DecidableEq

/-- The request bodies sent to the Management API.  Serialization is
abstracted: a body is represented by which record it serializes, with
the identifiers that appear in routes kept explicitly. -/
inductive RequestBody
  | Empty
  | BootSource
  | Drive (driveId : String)
  | MachineConfiguration
  | CpuTemplate
  | NetworkInterface (ifaceId : String)
  | BalloonDevice
  | VsockDevice
  | LoggerSystem
  | MetricsSystem
  | MmdsConfiguration
  | EntropyDevice
  | LoadSnapshot
  | Action (actionType : ReprActionType)
  | UpdateState (state : ReprUpdatedState)
  | UpdateBalloonDevice
  | UpdateBalloonStatistics
  | UpdateDrive (driveId : String)
  | UpdateNetworkInterface (ifaceId : String)
  | CreateSnapshot (snapshotPath memFilePath : String)
  | MmdsValue
  | Custom
  deriving DecidableEq

/-- An HTTP request to the Management API. -/
structure HttpRequest where
  route : String
  method : String
  body : RequestBody
  deriving DecidableEq

/-- An HTTP response from the Management API.  body stands for the
response body text; faultMessage is the fault_message field of the
standard error envelope, consulted only for non-2xx responses. -/
structure HttpResponse where
  status : Nat
  body : String
  faultMessage : String

/-- The observable effects a VM performs on its environment. -/
inductive VmEffect
  | ApiRequest (request : HttpRequest)
  | SentCtrlAltDel
  | SentSigkill
  | WroteRebootToStdin
  | AwaitedExit
  deriving DecidableEq

/-- The environment fixing the outcome of every external interaction of
a VM.  Each function is indexed by how many effects of its kind happened
before, so the environment is deterministic given the effect history. -/
structure VmEnv where
  httpResponse : Nat → HttpResponse
  ctrlAltDelOk : Nat → Bool
  sigkillOk : Nat → Bool
  stdinWriteOk : Nat → Bool
  stdinFlushOk : Nat → Bool
  exitObservedWithinTimeout : Nat → Bool
  innerToOuterPath : String → String
  executorTraceless : Bool

/-- The Vm structure: the VMM process state it supervises (through the
VmmProcess of spec section 4.5), the is_paused flag, snapshot traces and
the captured configuration data, plus the history of observable effects
used to interpret the environment. -/
structure Vm where
  processState : VmmProcessState
  isPaused : Bool
  snapshotTraces : List String
  originalConfigurationData : VmConfigurationData
  effects : List VmEffect
  deriving DecidableEq

/-- Append one observable effect. -/
def Vm.addEffect (vm : Vm) (e : VmEffect) : Vm :=
  { vm with effects := vm.effects ++ [e] }

/-- How many Management API requests the VM has sent so far. -/
def Vm.apiRequestCount (vm : Vm) : Nat :=
  (vm.effects.filter fun e => match e with | .ApiRequest _ => true | _ => false).length

/-- How many ctrl-alt-del requests the VM has sent so far. -/
def Vm.ctrlAltDelCount (vm : Vm) : Nat :=
  (vm.effects.filter fun e => match e with | .SentCtrlAltDel => true | _ => false).length

/-- How many SIGKILLs the VM has sent so far. -/
def Vm.sigkillCount (vm : Vm) : Nat :=
  (vm.effects.filter fun e => match e with | .SentSigkill => true | _ => false).length

/-- How many reboot writes to stdin the VM has performed so far. -/
def Vm.stdinWriteCount (vm : Vm) : Nat :=
  (vm.effects.filter fun e => match e with | .WroteRebootToStdin => true | _ => false).length

/-- How many bounded waits for process exit the VM has performed. -/
def Vm.awaitExitCount (vm : Vm) : Nat :=
  (vm.effects.filter fun e => match e with | .AwaitedExit => true | _ => false).length

/-- Vm::state from src/vm/mod.rs: the derived VM state. -/
def Vm.state (vm : Vm) : VmState :=
  match vm.processState with
  | .Started => if vm.isPaused then VmState.Paused else VmState.Running
  | .Exited => VmState.Exited
  | .Crashed exitStatus => VmState.Crashed exitStatus
  | _ => VmState.NotStarted

/-- VmStateCheckError: the state-violation errors.  The variant data
matches the ExpectedState error of src/vm/mod.rs, carrying the expected
state set and the actual state. -/
inductive VmStateCheckError
  | ExpectedState (expected : List VmState) (actual : VmState)
  | ExpectedExitedOrCrashed (actual : VmState)
  deriving DecidableEq

/-- VmApiError from src/vm/api.rs.  Error payloads that wrap foreign
error values are abstracted to bare variants. -/
inductive VmApiError
  | SerdeError
  | ReceivedErrorResponse (statusCode : Nat) (faultMessage : String)
  | RequestBuildError
  | ConnectionError
  | ResponseBodyReceiveError
  | ResponseBodyContainsUnexpectedData (body : String)
  | StateCheckError (e : VmStateCheckError)
  deriving DecidableEq

/-- VmError from src/vm/mod.rs. -/
inductive VmError
  | ProcessError
  | ExpectedState (expected : List VmState) (actual : VmState)
  | ExpectedExitedOrCrashed (actual : VmState)
  | SerdeError
  | IoError
  | ApiRespondedWithFault (statusCode : Nat) (faultMessage : String)
  | ApiRequestNotConstructed
  | ApiResponseCouldNotBeReceived
  | ApiResponseExpectedEmpty (body : String)
  | NoShutdownMethodsSpecified
  | Timeout
  | DisabledApiSocketIsUnsupported
  | MissingPathMapping
  deriving DecidableEq

/-- Vm::ensure_states from src/vm/mod.rs: succeed when the derived
state is in the expected set, otherwise fail with ExpectedState carrying
the expected set and the actual state, as a VmError. -/
def Vm.ensureStates (vm : Vm) (expectedStates : List VmState) : Except VmError Unit :=
  if vm.state ∈ expectedStates then .ok ()
  else .error (.ExpectedState expectedStates vm.state)

/-- Vm::ensure_state. -/
def Vm.ensureState (vm : Vm) (expectedState : VmState) : Except VmError Unit :=
  vm.ensureStates [expectedState]

/-- Vm::ensure_paused_or_running. -/
def Vm.ensurePausedOrRunning (vm : Vm) : Except VmError Unit :=
  vm.ensureStates [VmState.Running, VmState.Paused]

/-- The state checks used by the src/vm/api.rs operations, producing a
VmStateCheckError (wrapped by the caller into VmApiError).  Same check
as Vm.ensureStates. -/
def Vm.ensureStatesCheck (vm : Vm) (expectedStates : List VmState) : Except VmStateCheckError Unit :=
  if vm.state ∈ expectedStates then .ok ()
  else .error (.ExpectedState expectedStates vm.state)

/-- Whether an HTTP status code counts as a success (2xx). -/
def httpStatusIsSuccess (status : Nat) : Bool :=
  200 ≤ status && status ≤ 299

/-- Whether a response body is blank: trimming it leaves the empty
string, that is, every character is whitespace. -/
def responseBodyIsBlank (s : String) : Bool :=
  s.data.all fun c => c.isWhitespace

/-- send_api_request_internal from src/vm/api.rs: build the request,
send it through the VMM process (recorded as an effect, answered by the
environment), receive the body; a non-2xx status yields
ReceivedErrorResponse with the status code and the parsed fault
message. -/
def sendApiRequestInternal (env : VmEnv) (vm : Vm) (route method : String) (body : RequestBody) :
    Except VmApiError String × Vm :=
  let response := env.httpResponse vm.apiRequestCount
  let vm1 := vm.addEffect (.ApiRequest { route := route, method := method, body := body })
  if httpStatusIsSuccess response.status then (.ok response.body, vm1)
  else (.error (.ReceivedErrorResponse response.status response.faultMessage), vm1)

/-- send_api_request from src/vm/api.rs: expect an empty response body. -/
def sendApiRequest (env : VmEnv) (vm : Vm) (route method : String) (body : RequestBody) :
    Except VmApiError Unit × Vm :=
  match sendApiRequestInternal env vm route method body with
  | (.ok responseBody, vm1) =>
    if responseBodyIsBlank responseBody then (.ok (), vm1)
    else (.error (.ResponseBodyContainsUnexpectedData responseBody), vm1)
  | (.error e, vm1) => (.error e, vm1)

/-- send_api_request_with_response from src/vm/api.rs: deserialize the
response body; deserialization is abstracted to returning the body. -/
def sendApiRequestWithResponse (env : VmEnv) (vm : Vm) (route method : String) (body : RequestBody) :
    Except VmApiError String × Vm :=
  sendApiRequestInternal env vm route method body

/-- Relay the VM part of a result whose success payload is discarded. -/
def discardPayload {α : Type} : Except VmApiError α × Vm → Except VmApiError Unit × Vm
  | (.ok _, vm) => (.ok (), vm)
  | (.error e, vm) => (.error e, vm)

/-- CreateSnapshot request record: the inner snapshot and memory paths. -/
structure CreateSnapshot where
  snapshotPath : String
  memFilePath : String
  deriving DecidableEq

/-- VmApi::api_get_info. -/
def Vm.apiGetInfo (env : VmEnv) (vm : Vm) : Except VmApiError String × Vm :=
  match vm.ensureStatesCheck [VmState.Running, VmState.Paused] with
  | .error e => (.error (.StateCheckError e), vm)
  | .ok () => sendApiRequestWithResponse env vm "/" "GET" .Empty

/-- VmApi::api_flush_metrics. -/
def Vm.apiFlushMetrics (env : VmEnv) (vm : Vm) : Except VmApiError Unit × Vm :=
  match vm.ensureStatesCheck [VmState.Running, VmState.Paused] with
  | .error e => (.error (.StateCheckError e), vm)
  | .ok () => sendApiRequest env vm "/actions" "PUT" (.Action .FlushMetrics)

/-- VmApi::api_get_balloon_device. -/
def Vm.apiGetBalloonDevice (env : VmEnv) (vm : Vm) : Except VmApiError String × Vm :=
  match vm.ensureStatesCheck [VmState.Running, VmState.Paused] with
  | .error e => (.error (.StateCheckError e), vm)
  | .ok () => sendApiRequestWithResponse env vm "/balloon" "GET" .Empty

/-- VmApi::api_update_balloon_device. -/
def Vm.apiUpdateBalloonDevice (env : VmEnv) (vm : Vm) : Except VmApiError Unit × Vm :=
  match vm.ensureStatesCheck [VmState.Running, VmState.Paused] with
  | .error e => (.error (.StateCheckError e), vm)
  | .ok () => sendApiRequest env vm "/balloon" "PATCH" .UpdateBalloonDevice

/-- VmApi::api_get_balloon_statistics: requires the Running state. -/
def Vm.apiGetBalloonStatistics (env : VmEnv) (vm : Vm) : Except VmApiError String × Vm :=
  match vm.ensureStatesCheck [VmState.Running] with
  | .error e => (.error (.StateCheckError e), vm)
  | .ok () => sendApiRequestWithResponse env vm "/balloon/statistics" "GET" .Empty

/-- VmApi::api_update_balloon_statistics. -/
def Vm.apiUpdateBalloonStatistics (env : VmEnv) (vm : Vm) : Except VmApiError Unit × Vm :=
  match vm.ensureStatesCheck [VmState.Running, VmState.Paused] with
  | .error e => (.error (.StateCheckError e), vm)
  | .ok () => sendApiRequest env vm "/balloon/statistics" "PATCH" .UpdateBalloonStatistics

/-- VmApi::api_update_drive. -/
def Vm.apiUpdateDrive (env : VmEnv) (vm : Vm) (driveId : String) : Except VmApiError Unit × Vm :=
  match vm.ensureStatesCheck [VmState.Running, VmState.Paused] with
  | .error e => (.error (.StateCheckError e), vm)
  | .ok () => sendApiRequest env vm ("/drives/" ++ driveId) "PATCH" (.UpdateDrive driveId)

/-- VmApi::api_update_network_interface. -/
def Vm.apiUpdateNetworkInterface (env : VmEnv) (vm : Vm) (ifaceId : String) : Except VmApiError Unit × Vm :=
  match vm.ensureStatesCheck [VmState.Running, VmState.Paused] with
  | .error e => (.error (.StateCheckError e), vm)
  | .ok () =>
    sendApiRequest env vm ("/network-interfaces/" ++ ifaceId) "PATCH" (.UpdateNetworkInterface ifaceId)

/-- VmApi::api_get_machine_configuration. -/
def Vm.apiGetMachineConfiguration (env : VmEnv) (vm : Vm) : Except VmApiError String × Vm :=
  match vm.ensureStatesCheck [VmState.Running, VmState.Paused] with
  | .error e => (.error (.StateCheckError e), vm)
  | .ok () => sendApiRequestWithResponse env vm "/machine-config" "GET" .Empty

/-- VmApi::api_create_snapshot: requires the Paused state; on success
records the outer snapshot and memory paths as traces when the executor
is not traceless and returns the SnapshotData. -/
def Vm.apiCreateSnapshot (env : VmEnv) (vm : Vm) (createSnapshot : CreateSnapshot) :
    Except VmApiError SnapshotData × Vm :=
  match vm.ensureStatesCheck [VmState.Paused] with
  | .error e => (.error (.StateCheckError e), vm)
  | .ok () =>
    match sendApiRequest env vm "/snapshot/create" "PUT"
        (.CreateSnapshot createSnapshot.snapshotPath createSnapshot.memFilePath) with
    | (.error e, vm1) => (.error e, vm1)
    | (.ok (), vm1) =>
      let snapshotPath := env.innerToOuterPath createSnapshot.snapshotPath
      let memFilePath := env.innerToOuterPath createSnapshot.memFilePath
      let vm2 :=
        if env.executorTraceless then vm1
        else { vm1 with snapshotTraces := vm1.snapshotTraces ++ [snapshotPath, memFilePath] }
      (.ok { snapshotPath := snapshotPath, memFilePath := memFilePath,
             configurationData := vm2.originalConfigurationData }, vm2)

/-- VmApi::api_get_firecracker_version. -/
def Vm.apiGetFirecrackerVersion (env : VmEnv) (vm : Vm) : Except VmApiError String × Vm :=
  match vm.ensureStatesCheck [VmState.Running, VmState.Paused] with
  | .error e => (.error (.StateCheckError e), vm)
  | .ok () => sendApiRequestWithResponse env vm "/version" "GET" .Empty

/-- VmApi::api_get_effective_configuration from src/vm/api.rs: a plain
read of GET /vm/config, leaving is_paused alone. -/
def Vm.apiGetEffectiveConfiguration (env : VmEnv) (vm : Vm) : Except VmApiError String × Vm :=
  match vm.ensureStatesCheck [VmState.Running, VmState.Paused] with
  | .error e => (.error (.StateCheckError e), vm)
  | .ok () => sendApiRequestWithResponse env vm "/vm/config" "GET" .Empty

/-- VmApi::api_pause: requires Running; on success sets is_paused. -/
def Vm.apiPause (env : VmEnv) (vm : Vm) : Except VmApiError Unit × Vm :=
  match vm.ensureStatesCheck [VmState.Running] with
  | .error e => (.error (.StateCheckError e), vm)
  | .ok () =>
    match sendApiRequest env vm "/vm" "PATCH" (.UpdateState .Paused) with
    | (.ok (), vm1) => (.ok (), { vm1 with isPaused := true })
    | (.error e, vm1) => (.error e, vm1)

/-- VmApi::api_resume: requires Paused; on success clears is_paused. -/
def Vm.apiResume (env : VmEnv) (vm : Vm) : Except VmApiError Unit × Vm :=
  match vm.ensureStatesCheck [VmState.Paused] with
  | .error e => (.error (.StateCheckError e), vm)
  | .ok () =>
    match sendApiRequest env vm "/vm" "PATCH" (.UpdateState .Resumed) with
    | (.ok (), vm1) => (.ok (), { vm1 with isPaused := false })
    | (.error e, vm1) => (.error e, vm1)

/-- VmApi::api_create_mmds (typed and untyped share this shape). -/
def Vm.apiCreateMmds (env : VmEnv) (vm : Vm) : Except VmApiError Unit × Vm :=
  match vm.ensureStatesCheck [VmState.Running, VmState.Paused] with
  | .error e => (.error (.StateCheckError e), vm)
  | .ok () => sendApiRequest env vm "/mmds" "PUT" .MmdsValue

/-- VmApi::api_update_mmds (typed and untyped share this shape). -/
def Vm.apiUpdateMmds (env : VmEnv) (vm : Vm) : Except VmApiError Unit × Vm :=
  match vm.ensureStatesCheck [VmState.Running, VmState.Paused] with
  | .error e => (.error (.StateCheckError e), vm)
  | .ok () => sendApiRequest env vm "/mmds" "PATCH" .MmdsValue

/-- VmApi::api_get_mmds (typed and untyped share this shape). -/
def Vm.apiGetMmds (env : VmEnv) (vm : Vm) : Except VmApiError String × Vm :=
  match vm.ensureStatesCheck [VmState.Running, VmState.Paused] with
  | .error e => (.error (.StateCheckError e), vm)
  | .ok () => sendApiRequestWithResponse env vm "/mmds" "GET" .Empty

/-- VmApi::api_custom_request: forward a user-built request through the
VMM process (no status or body check) and optionally overwrite
is_paused with the caller-supplied value. -/
def Vm.apiCustomRequest (_env : VmEnv) (vm : Vm) (route method : String) (newIsPaused : Option Bool) :
    Except VmApiError Unit × Vm :=
  match vm.ensureStatesCheck [VmState.Running, VmState.Paused] with
  | .error e => (.error (.StateCheckError e), vm)
  | .ok () =>
    let vm1 := vm.addEffect (.ApiRequest { route := route, method := method, body := .Custom })
    let vm2 :=
      match newIsPaused with
      | some b => { vm1 with isPaused := b }
      | none => vm1
    (.ok (), vm2)

/-- The public Management API operations of the VmApi trait, with the
identifying arguments each operation takes. -/
inductive VmApiOp
  | customRequest (route method : String) (newIsPaused : Option Bool)
  | getInfo
  | flushMetrics
  | getBalloonDevice
  | updateBalloonDevice
  | getBalloonStatistics
  | updateBalloonStatistics
  | updateDrive (driveId : String)
  | updateNetworkInterface (ifaceId : String)
  | getMachineConfiguration
  | createSnapshot (request : CreateSnapshot)
  | getFirecrackerVersion
  | getEffectiveConfiguration
  | pause
  | resume
  | createMmds
  | updateMmds
  | getMmds
  deriving DecidableEq

/-- The precondition state set each operation declares, as read off the
ensure call its implementation starts with. -/
def VmApiOp.precondition : VmApiOp → List VmState
  | .getBalloonStatistics => [VmState.Running]
  | .createSnapshot _ => [VmState.Paused]
  | .pause => [VmState.Running]
  | .resume => [VmState.Paused]
  | _ => [VmState.Running, VmState.Paused]

/-- Dispatch an operation, discarding the success payload. -/
def Vm.applyApiOp (env : VmEnv) (vm : Vm) : VmApiOp → Except VmApiError Unit × Vm
  | .customRequest route method newIsPaused => vm.apiCustomRequest env route method newIsPaused
  | .getInfo => discardPayload (vm.apiGetInfo env)
  | .flushMetrics => vm.apiFlushMetrics env
  | .getBalloonDevice => discardPayload (vm.apiGetBalloonDevice env)
  | .updateBalloonDevice => vm.apiUpdateBalloonDevice env
  | .getBalloonStatistics => discardPayload (vm.apiGetBalloonStatistics env)
  | .updateBalloonStatistics => vm.apiUpdateBalloonStatistics env
  | .updateDrive driveId => vm.apiUpdateDrive env driveId
  | .updateNetworkInterface ifaceId => vm.apiUpdateNetworkInterface env ifaceId
  | .getMachineConfiguration => discardPayload (vm.apiGetMachineConfiguration env)
  | .createSnapshot request => discardPayload (vm.apiCreateSnapshot env request)
  | .getFirecrackerVersion => discardPayload (vm.apiGetFirecrackerVersion env)
  | .getEffectiveConfiguration => discardPayload (vm.apiGetEffectiveConfiguration env)
  | .pause => vm.apiPause env
  | .resume => vm.apiResume env
  | .createMmds => vm.apiCreateMmds env
  | .updateMmds => vm.apiUpdateMmds env
  | .getMmds => discardPayload (vm.apiGetMmds env)

/-!
## API-driven boot sequence

Embedded from init_new in src/vm/api.rs; Vm::start in src/vm/mod.rs
carries the identical request sequence inline for its API-driven boot
path.  Each step sends one PUT and aborts the whole sequence on the
first error, exactly as the early-return chain does in the source.
-/

/-- Sequence two steps of the boot protocol: run the continuation only
when the first step succeeded, mirroring the early-return operator. -/
def apiStep (r : Except VmApiError Unit × Vm) (k : Vm → Except VmApiError Unit × Vm) :
    Except VmApiError Unit × Vm :=
  match r with
  | (.ok (), vm) => k vm
  | (.error e, vm) => (.error e, vm)

/-- The per-drive loop of init_new: PUT /drives/id for each drive in
order, aborting on the first error. -/
def sendDrivePuts (env : VmEnv) : List Drive → Vm → Except VmApiError Unit × Vm
  | [], vm => (.ok (), vm)
  | drive :: rest, vm =>
    match sendApiRequest env vm ("/drives/" ++ drive.driveId) "PUT" (.Drive drive.driveId) with
    | (.ok (), vm1) => sendDrivePuts env rest vm1
    | (.error e, vm1) => (.error e, vm1)

/-- The per-interface loop of init_new: PUT /network-interfaces/id for
each network interface in order, aborting on the first error. -/
def sendNetworkInterfacePuts (env : VmEnv) : List NetworkInterface → Vm → Except VmApiError Unit × Vm
  | [], vm => (.ok (), vm)
  | networkInterface :: rest, vm =>
    match sendApiRequest env vm ("/network-interfaces/" ++ networkInterface.ifaceId) "PUT"
        (.NetworkInterface networkInterface.ifaceId) with
    | (.ok (), vm1) => sendNetworkInterfacePuts env rest vm1
    | (.error e, vm1) => (.error e, vm1)

/-- init_new from src/vm/api.rs: the ordered API boot sequence for a
new VM booted via API calls.  PUT /boot-source, each drive, PUT
/machine-config, the optional devices in source order, and finally PUT
/actions with InstanceStart. -/
def initNew (env : VmEnv) (vm : Vm) (data : VmConfigurationData) : Except VmApiError Unit × Vm :=
  apiStep (sendApiRequest env vm "/boot-source" "PUT" .BootSource) fun vm =>
  apiStep (sendDrivePuts env data.drives vm) fun vm =>
  apiStep (sendApiRequest env vm "/machine-config" "PUT" .MachineConfiguration) fun vm =>
  apiStep
    (match data.cpuTemplate with
     | some _ => sendApiRequest env vm "/cpu-config" "PUT" .CpuTemplate
     | none => (.ok (), vm)) fun vm =>
  apiStep (sendNetworkInterfacePuts env data.networkInterfaces vm) fun vm =>
  apiStep
    (match data.balloonDevice with
     | some _ => sendApiRequest env vm "/balloon" "PUT" .BalloonDevice
     | none => (.ok (), vm)) fun vm =>
  apiStep
    (match data.vsockDevice with
     | some _ => sendApiRequest env vm "/vsock" "PUT" .VsockDevice
     | none => (.ok (), vm)) fun vm =>
  apiStep
    (match data.loggerSystem with
     | some _ => sendApiRequest env vm "/logger" "PUT" .LoggerSystem
     | none => (.ok (), vm)) fun vm =>
  apiStep
    (match data.metricsSystem with
     | some _ => sendApiRequest env vm "/metrics" "PUT" .MetricsSystem
     | none => (.ok (), vm)) fun vm =>
  apiStep
    (match data.mmdsConfiguration with
     | some _ => sendApiRequest env vm "/mmds/config" "PUT" .MmdsConfiguration
     | none => (.ok (), vm)) fun vm =>
  apiStep
    (match data.entropyDevice with
     | some _ => sendApiRequest env vm "/entropy" "PUT" .EntropyDevice
     | none => (.ok (), vm)) fun vm =>
  sendApiRequest env vm "/actions" "PUT" (.Action .InstanceStart)

/-!
## Legacy request pipeline and shutdown loop of src/vm/mod.rs

The Vm in src/vm/mod.rs carries its own copy of the request pipeline
(send_req_core, send_req, send_req_with_resp over VmError) plus the
shutdown loop and an api_get_effective_configuration that mutates
is_paused after the read.  They are embedded separately because their
behavior on the claims differs from the src/vm/api.rs pipeline.
-/

/-- send_req_core from src/vm/mod.rs: same transport as the api.rs
pipeline, with errors reported through VmError. -/
def sendReqCore (env : VmEnv) (vm : Vm) (route method : String) (body : RequestBody) :
    Except VmError String × Vm :=
  let response := env.httpResponse vm.apiRequestCount
  let vm1 := vm.addEffect (.ApiRequest { route := route, method := method, body := body })
  if httpStatusIsSuccess response.status then (.ok response.body, vm1)
  else (.error (.ApiRespondedWithFault response.status response.faultMessage), vm1)

/-- send_req from src/vm/mod.rs: expect an empty response body. -/
def sendReq (env : VmEnv) (vm : Vm) (route method : String) (body : RequestBody) :
    Except VmError Unit × Vm :=
  match sendReqCore env vm route method body with
  | (.ok responseBody, vm1) =>
    if responseBodyIsBlank responseBody then (.ok (), vm1)
    else (.error (.ApiResponseExpectedEmpty responseBody), vm1)
  | (.error e, vm1) => (.error e, vm1)

/-- send_req_with_resp from src/vm/mod.rs, deserialization abstracted. -/
def sendReqWithResp (env : VmEnv) (vm : Vm) (route method : String) (body : RequestBody) :
    Except VmError String × Vm :=
  sendReqCore env vm route method body

/-- Vm::api_get_effective_configuration from src/vm/mod.rs: after a
successful read of GET /vm/config it assigns is_paused = false. -/
def Vm.apiGetEffectiveConfigurationLegacy (env : VmEnv) (vm : Vm) : Except VmError String × Vm :=
  match vm.ensurePausedOrRunning with
  | .error e => (.error e, vm)
  | .ok () =>
    match sendReqWithResp env vm "/vm/config" "GET" .Empty with
    | (.ok fetchedConfiguration, vm1) => (.ok fetchedConfiguration, { vm1 with isPaused := false })
    | (.error e, vm1) => (.error e, vm1)

/-- VmShutdownMethod from src/vm/mod.rs.  The stdin handle carried by
WriteRebootToStdin is left implicit. -/
inductive VmShutdownMethod
  | CtrlAltDel
  | PauseThenKill
  | WriteRebootToStdin
  | Kill
  deriving DecidableEq

/-- One bounded wait for VMM exit inside the shutdown loop: record the
wait, succeed when the environment observes the exit within the
timeout, fail with Timeout otherwise.  An error of the inner
wait_for_exit future is collapsed into success by the source
(map over the timeout result discards it), so only the timeout matters. -/
def shutdownAwaitExit (env : VmEnv) (vm : Vm) : Except VmError Unit × Vm :=
  let vm1 := vm.addEffect .AwaitedExit
  if env.exitObservedWithinTimeout vm.awaitExitCount then (.ok (), vm1)
  else (.error .Timeout, vm1)

/-- The method loop of Vm::shutdown from src/vm/mod.rs.  For each
method in order: perform its action, and when the action succeeded,
await exit under the timeout; break out on overall success, otherwise
remember the error and try the next method.  A failed stdin write
aborts the whole loop through the early-return operator.  The final
result is the last recorded outcome. -/
def shutdownLoop (env : VmEnv) : List VmShutdownMethod → Except VmError Unit → Vm →
    Except VmError Unit × Vm
  | [], lastResult, vm => (lastResult, vm)
  | method :: rest, _, vm =>
    match method with
    | .CtrlAltDel =>
      let vm1 := vm.addEffect .SentCtrlAltDel
      let actionResult : Except VmError Unit :=
        if env.ctrlAltDelOk vm.ctrlAltDelCount then .ok () else .error .ProcessError
      match actionResult with
      | .ok () =>
        match shutdownAwaitExit env vm1 with
        | (.ok (), vm2) => (.ok (), vm2)
        | (.error e, vm2) => shutdownLoop env rest (.error e) vm2
      | .error e => shutdownLoop env rest (.error e) vm1
    | .PauseThenKill =>
      match sendReq env vm "/vm" "PATCH" (.UpdateState .Paused) with
      | (.ok (), vm1) =>
        match shutdownAwaitExit env vm1 with
        | (.ok (), vm2) => (.ok (), vm2)
        | (.error e, vm2) => shutdownLoop env rest (.error e) vm2
      | (.error e, vm1) => shutdownLoop env rest (.error e) vm1
    | .WriteRebootToStdin =>
      let vm1 := vm.addEffect .WroteRebootToStdin
      if env.stdinWriteOk vm.stdinWriteCount then
        let actionResult : Except VmError Unit :=
          if env.stdinFlushOk vm.stdinWriteCount then .ok () else .error .IoError
        match actionResult with
        | .ok () =>
          match shutdownAwaitExit env vm1 with
          | (.ok (), vm2) => (.ok (), vm2)
          | (.error e, vm2) => shutdownLoop env rest (.error e) vm2
        | .error e => shutdownLoop env rest (.error e) vm1
      else
        (.error .IoError, vm1)
    | .Kill =>
      let vm1 := vm.addEffect .SentSigkill
      let actionResult : Except VmError Unit :=
        if env.sigkillOk vm.sigkillCount then .ok () else .error .ProcessError
      match actionResult with
      | .ok () =>
        match shutdownAwaitExit env vm1 with
        | (.ok (), vm2) => (.ok (), vm2)
        | (.error e, vm2) => shutdownLoop env rest (.error e) vm2
      | .error e => shutdownLoop env rest (.error e) vm1

/-- Vm::shutdown from src/vm/mod.rs: check the Running-or-Paused
precondition, then run the method loop with an initial Ok outcome. -/
def Vm.shutdown (env : VmEnv) (vm : Vm) (shutdownMethods : List VmShutdownMethod) :
    Except VmError Unit × Vm :=
  match vm.ensurePausedOrRunning with
  | .error e => (.error e, vm)
  | .ok () => shutdownLoop env shutdownMethods (.ok ()) vm

/-!
## Concrete fixtures

Concrete configuration data, environments and VM values used by the
witness theorems and concrete evaluations.
-/

/-- A concrete configuration data value. -/
def sampleConfigurationData : VmConfigurationData :=
  { bootSource := { kernelImagePath := "/opt/kernel.bin", initrdPath := none }
    drives := [{ driveId := "d0" }]
    machineConfiguration := ()
    cpuTemplate := none
    networkInterfaces := [{ ifaceId := "n0" }]
    balloonDevice := none
    vsockDevice := none
    loggerSystem := none
    metricsSystem := none
    mmdsConfiguration := none
    entropyDevice := none }

/-- An environment in which every interaction succeeds: all HTTP
responses are 200 with an empty body, every signal and wait succeeds. -/
def allOkEnv : VmEnv :=
  { httpResponse := fun _ => { status := 200, body := "", faultMessage := "" }
    ctrlAltDelOk := fun _ => true
    sigkillOk := fun _ => true
    stdinWriteOk := fun _ => true
    stdinFlushOk := fun _ => true
    exitObservedWithinTimeout := fun _ => true
    innerToOuterPath := fun p => p
    executorTraceless := true }

/-- An environment whose HTTP responses are 200 with a non-empty body,
standing for a successful read returning a JSON document. -/
def nonEmptyBodyEnv : VmEnv :=
  { allOkEnv with
    httpResponse := fun _ => { status := 200, body := "effective-config", faultMessage := "" } }

/-- A New-variant configuration data with exactly one drive, one
network interface and no optional devices. -/
def minimalNewConfiguration (kernel d0 n0 : String) : VmConfigurationData :=
  { bootSource := { kernelImagePath := kernel, initrdPath := none }
    drives := [{ driveId := d0 }]
    machineConfiguration := ()
    cpuTemplate := none
    networkInterfaces := [{ ifaceId := n0 }]
    balloonDevice := none
    vsockDevice := none
    loggerSystem := none
    metricsSystem := none
    mmdsConfiguration := none
    entropyDevice := none }

/-- The boot requests a minimal New-variant configuration gives rise to,
in order. -/
def minimalBootRequests (d0 n0 : String) : List HttpRequest :=
  [{ route := "/boot-source", method := "PUT", body := .BootSource },
   { route := "/drives/" ++ d0, method := "PUT", body := .Drive d0 },
   { route := "/machine-config", method := "PUT", body := .MachineConfiguration },
   { route := "/network-interfaces/" ++ n0, method := "PUT", body := .NetworkInterface n0 },
   { route := "/actions", method := "PUT", body := .Action .InstanceStart }]

/-- A concrete snapshot data value. -/
def sampleSnapshotData : SnapshotData :=
  { snapshotPath := "/srv/snap/vm.snapshot"
    memFilePath := "/srv/snap/vm.mem"
    configurationData := sampleConfigurationData }

/-- A VM whose VMM process has started and that is not paused: derived
state Running. -/
def runningTestVm : Vm :=
  { processState := .Started
    isPaused := false
    snapshotTraces := []
    originalConfigurationData := sampleConfigurationData
    effects := [] }

/-- A VM whose VMM process has started and that is paused: derived
state Paused. -/
def pausedTestVm : Vm :=
  { runningTestVm with isPaused := true }

/-!
## Theorems
-/

/-- C6 counterexample: the claim states that the background task of a
detached handle recovers the raw exit status from /proc/pid/stat and
that wait returns the recovered status, reporting 0 only when the read
or parse fails.  On a detached process whose stat read would succeed
with raw status 256, the wait of the source still returns 0, so the
claim is false. -/
theorem c6_detached_wait_not_recovered_counterexample :
    (ProcessHandle.wait (ProcessHandle.detached true none)).1 ≠
      specRecoveredStatus { readOk := true, rawStatus := 256 } := by
  decide

/-- C6 amended: when the background task wakes on pidfd readability it
sends a unit notification (carrying no status) through the one-shot
channel; wait on a detached handle without a memoized status then
returns raw exit status 0 and memoizes it, and try_wait behaves the
same once the channel has fired. -/
theorem c6_detached_wait_reports_zero (rxFired : Bool) :
    ProcessHandle.wait (ProcessHandle.detached rxFired none) =
      (0, ProcessHandle.detached true (some 0)) ∧
    ProcessHandle.tryWait (ProcessHandle.detached true none) =
      (some 0, ProcessHandle.detached true (some 0)) := by
  exact ⟨rfl, rfl⟩

/-- C7: after the first wait of a process handle returns an exit
status, every further wait and try_wait returns the same memoized
status with the handle unchanged, and send_sigkill fails instead of
delivering a signal. -/
theorem c7_exit_status_memoization (h h2 : ProcessHandle) (s : Int)
    (hw : h.wait = (s, h2)) :
    h2.wait = (s, h2) ∧ h2.tryWait = (some s, h2) ∧ ∃ msg, h2.sendSigkill = .error msg := by
  cases h with
  | attached child pipesDropped =>
    simp only [ProcessHandle.wait, Prod.mk.injEq] at hw
    obtain ⟨hs, hh⟩ := hw
    subst hh
    refine ⟨?_, ?_, ?_⟩
    · simp [ProcessHandle.wait, hs]
    · simp [ProcessHandle.tryWait, hs]
    · exact ⟨"process already reaped", by simp [ProcessHandle.sendSigkill]⟩
  | detached rxFired exited =>
    cases exited with
    | some status =>
      simp only [ProcessHandle.wait, Prod.mk.injEq] at hw
      obtain ⟨hs, hh⟩ := hw
      subst hh
      subst hs
      refine ⟨?_, ?_, ?_⟩
      · simp [ProcessHandle.wait]
      · simp [ProcessHandle.tryWait]
      · exact ⟨"Trying to send SIGKILL to exited process", by simp [ProcessHandle.sendSigkill]⟩
    | none =>
      simp only [ProcessHandle.wait, Prod.mk.injEq] at hw
      obtain ⟨hs, hh⟩ := hw
      subst hh
      subst hs
      refine ⟨?_, ?_, ?_⟩
      · simp [ProcessHandle.wait]
      · simp [ProcessHandle.tryWait]
      · exact ⟨"Trying to send SIGKILL to exited process", by simp [ProcessHandle.sendSigkill]⟩

/-- C7 witness: the memoization theorem applied to a concrete detached
handle whose first wait returns status 0. -/
theorem c7_exit_status_memoization_witness :
    (ProcessHandle.detached true (some 0)).wait = (0, ProcessHandle.detached true (some 0)) ∧
    (ProcessHandle.detached true (some 0)).tryWait =
      (some 0, ProcessHandle.detached true (some 0)) ∧
    ∃ msg, (ProcessHandle.detached true (some 0)).sendSigkill = .error msg :=
  c7_exit_status_memoization (ProcessHandle.detached true none)
    (ProcessHandle.detached true (some 0)) 0 rfl

/-- C10: for an attached handle whose pipes were not dropped at spawn
time and are all present, the first get_pipes succeeds and returns the
three standard streams, a second get_pipes fails with
PipesWereAlreadyTaken, and wait, try_wait and send_sigkill behave on
the pipe-less handle exactly as they did before the pipes were taken. -/
theorem c10_pipes_taken_once (child : ChildProc)
    (hso : child.stdout = some ()) (hse : child.stderr = some ()) (hsi : child.stdin = some ()) :
    ∃ h1, (ProcessHandle.attached child false).getPipes =
        (.ok { stdout := (), stderr := (), stdin := () }, h1) ∧
      h1.getPipes = (.error .PipesWereAlreadyTaken, h1) ∧
      h1.wait.1 = (ProcessHandle.attached child false).wait.1 ∧
      h1.tryWait.1 = (ProcessHandle.attached child false).tryWait.1 ∧
      h1.sendSigkill = (ProcessHandle.attached child false).sendSigkill := by
  obtain ⟨osStatus, osExited, reaped, so, se, si⟩ := child
  simp only at hso hse hsi
  subst hso; subst hse; subst hsi
  refine ⟨ProcessHandle.attached
    { osStatus := osStatus, osExited := osExited, reaped := reaped,
      stdout := none, stderr := none, stdin := none } false, ?_, ?_, ?_, ?_, ?_⟩
  · simp [ProcessHandle.getPipes]
  · simp [ProcessHandle.getPipes]
  · simp [ProcessHandle.wait]
  · cases reaped with
    | some status => simp [ProcessHandle.tryWait]
    | none =>
      by_cases hex : osExited = true
      · simp [ProcessHandle.tryWait, hex]
      · simp only [Bool.not_eq_true] at hex
        simp [ProcessHandle.tryWait, hex]
  · cases reaped <;> simp [ProcessHandle.sendSigkill]

/-- C10 witness: the theorem applied to a concrete child with all three
pipes present. -/
theorem c10_pipes_taken_once_witness :
    ∃ h1, (ProcessHandle.attached
        { osStatus := 0, osExited := false, reaped := none,
          stdout := some (), stderr := some (), stdin := some () } false).getPipes =
        (.ok { stdout := (), stderr := (), stdin := () }, h1) ∧
      h1.getPipes = (.error .PipesWereAlreadyTaken, h1) ∧
      h1.wait.1 = (ProcessHandle.attached
        { osStatus := 0, osExited := false, reaped := none,
          stdout := some (), stderr := some (), stdin := some () } false).wait.1 ∧
      h1.tryWait.1 = (ProcessHandle.attached
        { osStatus := 0, osExited := false, reaped := none,
          stdout := some (), stderr := some (), stdin := some () } false).tryWait.1 ∧
      h1.sendSigkill = (ProcessHandle.attached
        { osStatus := 0, osExited := false, reaped := none,
          stdout := some (), stderr := some (), stdin := some () } false).sendSigkill :=
  c10_pipes_taken_once _ rfl rfl rfl

/-- C9: copy and move_out of a snapshot are atomic with respect to the
recorded paths: on any error both snapshot_path and mem_file_path are
left unchanged, and only on success are both rewritten to the new
destinations. -/
theorem c9_snapshot_path_rewrite_atomic (s : SnapshotData)
    (r1 r2 : Except FsBackendError Unit) (ns nm : String) :
    (∀ e, (s.copy r1 r2 ns nm).1 = .error e → (s.copy r1 r2 ns nm).2 = s) ∧
    ((s.copy r1 r2 ns nm).1 = .ok () →
      (s.copy r1 r2 ns nm).2 = { s with snapshotPath := ns, memFilePath := nm }) ∧
    (∀ e, (s.moveOut r1 r2 ns nm).1 = .error e → (s.moveOut r1 r2 ns nm).2 = s) ∧
    ((s.moveOut r1 r2 ns nm).1 = .ok () →
      (s.moveOut r1 r2 ns nm).2 = { s with snapshotPath := ns, memFilePath := nm }) := by
  rcases r1 with e1 | u1 <;> rcases r2 with e2 | u2 <;>
    simp [SnapshotData.copy, SnapshotData.moveOut]

/-- C9 witness: the atomicity theorem applied to a concrete snapshot,
once with a failing first copy (paths unchanged) and once with both
operations succeeding (paths rewritten). -/
theorem c9_snapshot_path_rewrite_atomic_witness :
    (sampleSnapshotData.copy (.error (.IoFailure "disk full")) (.ok ()) "/new/s" "/new/m").2 =
      sampleSnapshotData ∧
    (sampleSnapshotData.moveOut (.ok ()) (.ok ()) "/new/s" "/new/m").2 =
      { sampleSnapshotData with snapshotPath := "/new/s", memFilePath := "/new/m" } :=
  ⟨(c9_snapshot_path_rewrite_atomic sampleSnapshotData
      (.error (.IoFailure "disk full")) (.ok ()) "/new/s" "/new/m").1 _ rfl,
   (c9_snapshot_path_rewrite_atomic sampleSnapshotData
      (.ok ()) (.ok ()) "/new/s" "/new/m").2.2.2 rfl⟩

/-- C3: on a running VM, executing the PauseThenKill shutdown method in
an environment where every interaction succeeds sends only the pause
request and then awaits exit; no SIGKILL is ever sent, contradicting
the pause-kill-await behavior the claim (and the method name)
describe. -/
theorem c3_pause_then_kill_sends_no_sigkill :
    (Vm.shutdown allOkEnv runningTestVm [VmShutdownMethod.PauseThenKill]).1 = .ok () ∧
    (Vm.shutdown allOkEnv runningTestVm [VmShutdownMethod.PauseThenKill]).2.effects =
      [VmEffect.ApiRequest { route := "/vm", method := "PATCH", body := .UpdateState .Paused },
       VmEffect.AwaitedExit] ∧
    VmEffect.SentSigkill ∉
      (Vm.shutdown allOkEnv runningTestVm [VmShutdownMethod.PauseThenKill]).2.effects := by
  have heff : (Vm.shutdown allOkEnv runningTestVm [VmShutdownMethod.PauseThenKill]).2.effects =
      [VmEffect.ApiRequest { route := "/vm", method := "PATCH", body := .UpdateState .Paused },
       VmEffect.AwaitedExit] := rfl
  refine ⟨rfl, heff, ?_⟩
  rw [heff]
  decide

/-- C4: on a running VM, shutdown with an empty list of shutdown
methods returns success without any observable effect, instead of the
NoShutdownMethodsSpecified error the claim requires; that error variant
is declared in src/vm/mod.rs but never constructed. -/
theorem c4_empty_shutdown_method_list_returns_ok :
    Vm.shutdown allOkEnv runningTestVm [] = (.ok (), runningTestVm) := rfl

/-- C5: the api_get_effective_configuration of src/vm/mod.rs assigns
is_paused = false after a successful read-only GET /vm/config, moving a
Paused VM to Running, while the src/vm/api.rs implementation of the
same operation leaves is_paused unchanged on every path. -/
theorem c5_effective_configuration_read_clears_pause :
    (pausedTestVm.state = VmState.Paused ∧
     (Vm.apiGetEffectiveConfigurationLegacy nonEmptyBodyEnv pausedTestVm).1 = .ok "effective-config" ∧
     (Vm.apiGetEffectiveConfigurationLegacy nonEmptyBodyEnv pausedTestVm).2.isPaused = false ∧
     (Vm.apiGetEffectiveConfigurationLegacy nonEmptyBodyEnv pausedTestVm).2.state = VmState.Running) ∧
    ∀ (env : VmEnv) (vm : Vm), (Vm.apiGetEffectiveConfiguration env vm).2.isPaused = vm.isPaused := by
  constructor
  · exact ⟨rfl, rfl, rfl, rfl⟩
  · intro env vm
    simp only [Vm.apiGetEffectiveConfiguration, Vm.ensureStatesCheck]
    split
    · rfl
    · simp only [sendApiRequestWithResponse, sendApiRequestInternal, Vm.addEffect]
      split <;> rfl

/-- C1: every Management API operation invoked while the derived VM
state is outside its declared precondition set fails with the
ExpectedState error carrying the expected state set and the actual
state, leaving the VM entirely unchanged (no HTTP request recorded,
is_paused untouched); in particular pause requires Running, resume
requires Paused and create_snapshot requires Paused. -/
theorem c1_api_state_machine_soundness (op : VmApiOp) (env : VmEnv) (vm : Vm)
    (h : vm.state ∉ op.precondition) :
    vm.applyApiOp env op =
      (.error (.StateCheckError (.ExpectedState op.precondition vm.state)), vm) ∧
    VmApiOp.pause.precondition = [VmState.Running] ∧
    VmApiOp.resume.precondition = [VmState.Paused] ∧
    ∀ request, (VmApiOp.createSnapshot request).precondition = [VmState.Paused] := by
  refine ⟨?_, rfl, rfl, fun _ => rfl⟩
  cases op <;>
    · simp only [VmApiOp.precondition] at h
      simp_all [Vm.applyApiOp, VmApiOp.precondition, discardPayload,
        Vm.apiCustomRequest, Vm.apiGetInfo, Vm.apiFlushMetrics, Vm.apiGetBalloonDevice,
        Vm.apiUpdateBalloonDevice, Vm.apiGetBalloonStatistics, Vm.apiUpdateBalloonStatistics,
        Vm.apiUpdateDrive, Vm.apiUpdateNetworkInterface, Vm.apiGetMachineConfiguration,
        Vm.apiCreateSnapshot, Vm.apiGetFirecrackerVersion, Vm.apiGetEffectiveConfiguration,
        Vm.apiPause, Vm.apiResume, Vm.apiCreateMmds, Vm.apiUpdateMmds, Vm.apiGetMmds,
        Vm.ensureStatesCheck, h]

/-- C1 witness: pausing an already paused VM fails with ExpectedState
carrying the expected set and the Paused actual state, and the VM is
unchanged. -/
theorem c1_api_state_machine_soundness_witness :
    pausedTestVm.state ∉ VmApiOp.pause.precondition ∧
    (pausedTestVm.applyApiOp allOkEnv VmApiOp.pause =
      (.error (.StateCheckError (.ExpectedState VmApiOp.pause.precondition pausedTestVm.state)),
       pausedTestVm) ∧
     VmApiOp.pause.precondition = [VmState.Running] ∧
     VmApiOp.resume.precondition = [VmState.Paused] ∧
     ∀ request, (VmApiOp.createSnapshot request).precondition = [VmState.Paused]) :=
  ⟨by decide, c1_api_state_machine_soundness VmApiOp.pause allOkEnv pausedTestVm (by decide)⟩

/-- Looking up under a head pair whose key matches. -/
theorem mapLookup_cons_eq (kv : String × String) (rest : List (String × String)) (a : String)
    (h : kv.fst = a) : mapLookup (kv :: rest) a = some kv.snd := by
  unfold mapLookup
  rw [List.find?_cons_of_pos]
  · rfl
  · simp [h]

/-- Looking up under a head pair whose key differs. -/
theorem mapLookup_cons_ne (kv : String × String) (rest : List (String × String)) (a : String)
    (h : kv.fst ≠ a) : mapLookup (kv :: rest) a = mapLookup rest a := by
  unfold mapLookup
  rw [List.find?_cons_of_neg]
  simp [h]

/-- Key membership after insertion. -/
theorem mem_mapKeys_mapInsert (m : List (String × String)) (k v a : String) :
    a ∈ mapKeys (mapInsert m k v) ↔ a ∈ mapKeys m ∨ a = k := by
  induction m with
  | nil => simp [mapInsert, mapKeys]
  | cons kv rest ih =>
    by_cases hk : kv.fst = k
    · subst hk
      simp [mapInsert, mapKeys]
      tauto
    · simp only [mapInsert, if_neg hk]
      simp [mapKeys] at ih ⊢
      tauto

/-- Insertion preserves key distinctness. -/
theorem nodup_mapKeys_mapInsert (m : List (String × String)) (k v : String)
    (h : (mapKeys m).Nodup) : (mapKeys (mapInsert m k v)).Nodup := by
  induction m with
  | nil => simp [mapInsert, mapKeys]
  | cons kv rest ih =>
    by_cases hk : kv.fst = k
    · subst hk
      simpa [mapInsert, mapKeys] using h
    · simp only [mapInsert, if_neg hk]
      simp only [mapKeys, List.map_cons, List.nodup_cons] at h ⊢
      obtain ⟨h1, h2⟩ := h
      refine ⟨?_, ih h2⟩
      intro hmem
      rcases (mem_mapKeys_mapInsert rest k v kv.fst).mp hmem with hm | he
      · exact h1 hm
      · exact hk he

/-- A successful lookup exhibits a pair of the map. -/
theorem mapLookup_eq_some_mem (m : List (String × String)) (a v : String)
    (h : mapLookup m a = some v) : (a, v) ∈ m := by
  induction m with
  | nil => simp [mapLookup] at h
  | cons kv rest ih =>
    obtain ⟨k1, v1⟩ := kv
    by_cases hk : k1 = a
    · subst hk
      rw [mapLookup_cons_eq (k1, v1) rest k1 rfl] at h
      simp only [Option.some.injEq] at h
      subst h
      exact List.mem_cons_self _ _
    · rw [mapLookup_cons_ne (k1, v1) rest a hk] at h
      exact List.mem_cons_of_mem _ (ih h)

/-- A key of the map has a lookup value. -/
theorem exists_mapLookup_of_mem_keys (m : List (String × String)) (a : String)
    (h : a ∈ mapKeys m) : ∃ v, mapLookup m a = some v := by
  induction m with
  | nil => simp [mapKeys] at h
  | cons kv rest ih =>
    by_cases hk : kv.fst = a
    · exact ⟨kv.snd, mapLookup_cons_eq kv rest a hk⟩
    · have hmem : a ∈ mapKeys rest := by
        simp [mapKeys] at h
        rcases h with he | hm
        · exact absurd he.symm hk
        · simpa [mapKeys] using hm
      obtain ⟨v, hv⟩ := ih hmem
      exact ⟨v, by rw [mapLookup_cons_ne kv rest a hk]; exact hv⟩

/-- Every pair of an inserted map is an old pair or the inserted one. -/
theorem mem_mapInsert (m : List (String × String)) (k v : String) (kv : String × String)
    (h : kv ∈ mapInsert m k v) : kv ∈ m ∨ kv = (k, v) := by
  induction m with
  | nil => simpa [mapInsert] using h
  | cons hd rest ih =>
    by_cases hk : hd.fst = k
    · simp only [mapInsert, if_pos hk, List.mem_cons] at h
      rcases h with he | hm
      · right; exact he
      · left; exact List.mem_cons_of_mem _ hm
    · simp only [mapInsert, if_neg hk, List.mem_cons] at h
      rcases h with he | hm
      · left; exact he ▸ List.mem_cons_self _ _
      · rcases ih hm with hin | heq
        · left; exact List.mem_cons_of_mem _ hin
        · right; exact heq

/-- Invariants of the jailed path-mapping loop: when it succeeds, every
pair of the returned map is a renamer input-output pair, its keys are
the accumulator keys plus the processed outer paths, and key
distinctness is preserved. -/
theorem jailedPathMappingsAux_ok (rename : String → Except JailRenamerError String)
    (paths : List String) :
    ∀ acc m, jailedPathMappingsAux rename paths acc = .ok m →
      (∀ kv, kv ∈ acc → rename kv.fst = .ok kv.snd) →
      (∀ kv, kv ∈ m → rename kv.fst = .ok kv.snd) ∧
      (∀ a, a ∈ mapKeys m ↔ a ∈ mapKeys acc ∨ a ∈ paths) ∧
      ((mapKeys acc).Nodup → (mapKeys m).Nodup) := by
  induction paths with
  | nil =>
    intro acc m h hacc
    simp only [jailedPathMappingsAux, Except.ok.injEq] at h
    subst h
    exact ⟨hacc, by simp, fun hn => hn⟩
  | cons p rest ih =>
    intro acc m h hacc
    rw [jailedPathMappingsAux] at h
    cases hr : rename p with
    | error e => rw [hr] at h; exact absurd h (by simp)
    | ok inner =>
      rw [hr] at h
      have hacc2 : ∀ kv, kv ∈ mapInsert acc p inner → rename kv.fst = .ok kv.snd := by
        intro kv hkv
        rcases mem_mapInsert acc p inner kv hkv with hin | heq
        · exact hacc kv hin
        · subst heq; exact hr
      obtain ⟨h1, h2, h3⟩ := ih (mapInsert acc p inner) m h hacc2
      refine ⟨h1, ?_, ?_⟩
      · intro a
        rw [h2 a, mem_mapKeys_mapInsert]
        simp only [List.mem_cons]
        tauto
      · intro hn
        exact h3 (nodup_mapKeys_mapInsert acc p inner hn)

/-- The unrestricted mapping is the jailed loop under the identity
renamer, which never fails. -/
theorem unrestricted_eq_jailedAux (paths : List String) :
    ∀ acc, jailedPathMappingsAux (fun p => .ok p) paths acc =
      .ok (collectPairs (paths.map fun p => (p, p)) acc) := by
  induction paths with
  | nil => intro acc; rfl
  | cons p rest ih =>
    intro acc
    rw [jailedPathMappingsAux]
    simpa [collectPairs] using ih (mapInsert acc p p)

/-- The flat renamer only produces absolute inner paths. -/
theorem flatRenameForJail_absolute (p v : String) (h : flatRenameForJail p = .ok v) :
    isAbsolutePath v = true := by
  rw [flatRenameForJail] at h
  cases hf : pathFileName p with
  | none => rw [hf] at h; exact absurd h (by simp)
  | some name =>
    rw [hf] at h
    simp only [Except.ok.injEq] at h
    subst h
    cases name with
    | mk data => rfl

/-- C8: on every input list on which prepare succeeds, the returned
mapping has exactly one entry per input outer path (keys are distinct
and are exactly the inputs, so nothing is lost or duplicated); the
unrestricted executor maps each outer path to itself, and the jailed
executor with its flat renamer maps each outer path to an absolute
inner path. -/
theorem c8_prepare_mapping_totality (outerPaths : List String) :
    ((mapKeys (unrestrictedPathMappings outerPaths)).Nodup ∧
     (∀ p, p ∈ mapKeys (unrestrictedPathMappings outerPaths) ↔ p ∈ outerPaths) ∧
     (∀ p, p ∈ outerPaths → mapLookup (unrestrictedPathMappings outerPaths) p = some p)) ∧
    ∀ m, jailedPathMappings flatRenameForJail outerPaths = .ok m →
      (mapKeys m).Nodup ∧
      (∀ p, p ∈ mapKeys m ↔ p ∈ outerPaths) ∧
      ∀ p, p ∈ outerPaths → ∃ v, mapLookup m p = some v ∧ isAbsolutePath v = true := by
  constructor
  · have heq := unrestricted_eq_jailedAux outerPaths []
    obtain ⟨h1, h2, h3⟩ :=
      jailedPathMappingsAux_ok (fun p => .ok p) outerPaths []
        (collectPairs (outerPaths.map fun p => (p, p)) []) heq (by simp)
    refine ⟨h3 (by simp [mapKeys]), ?_, ?_⟩
    · intro p
      have := h2 p
      simpa [mapKeys, unrestrictedPathMappings] using this
    · intro p hp
      have hkey : p ∈ mapKeys (unrestrictedPathMappings outerPaths) := by
        rw [show unrestrictedPathMappings outerPaths =
          collectPairs (outerPaths.map fun q => (q, q)) [] from rfl, h2 p]
        exact Or.inr hp
      obtain ⟨v, hv⟩ := exists_mapLookup_of_mem_keys _ _ hkey
      have hpair := mapLookup_eq_some_mem _ _ _ hv
      have hval := h1 (p, v) hpair
      simp only [Except.ok.injEq] at hval
      rw [hv, hval]
  · intro m hm
    obtain ⟨h1, h2, h3⟩ :=
      jailedPathMappingsAux_ok flatRenameForJail outerPaths [] m hm (by simp)
    refine ⟨h3 (by simp [mapKeys]), ?_, ?_⟩
    · intro p
      have := h2 p
      simpa [mapKeys] using this
    · intro p hp
      have hkey : p ∈ mapKeys m := by
        rw [h2 p]; exact Or.inr hp
      obtain ⟨v, hv⟩ := exists_mapLookup_of_mem_keys _ _ hkey
      have hpair := mapLookup_eq_some_mem _ _ _ hv
      have hval := h1 (p, v) hpair
      exact ⟨v, hv, flatRenameForJail_absolute p v hval⟩

/-- C8 witness: the totality theorem applied to a concrete two-path
input, for both executors. -/
theorem c8_prepare_mapping_totality_witness :
    mapLookup (unrestrictedPathMappings ["/opt/kernel.bin", "/a/b/rootfs.ext4"])
        "/opt/kernel.bin" = some "/opt/kernel.bin" ∧
    ∃ v, mapLookup [("/opt/kernel.bin", "/kernel.bin"), ("/a/b/rootfs.ext4", "/rootfs.ext4")]
        "/opt/kernel.bin" = some v ∧ isAbsolutePath v = true :=
  ⟨(c8_prepare_mapping_totality ["/opt/kernel.bin", "/a/b/rootfs.ext4"]).1.2.2
      "/opt/kernel.bin" (by decide),
   ((c8_prepare_mapping_totality ["/opt/kernel.bin", "/a/b/rootfs.ext4"]).2
      [("/opt/kernel.bin", "/kernel.bin"), ("/a/b/rootfs.ext4", "/rootfs.ext4")]
      (by decide)).2.2 "/opt/kernel.bin" (by decide)⟩

/-- Adding a request effect increments the request count. -/
theorem apiRequestCount_addEffect_request (vm : Vm) (r : HttpRequest) :
    (vm.addEffect (.ApiRequest r)).apiRequestCount = vm.apiRequestCount + 1 := by
  simp [Vm.apiRequestCount, Vm.addEffect]

/-- A 2xx response with a blank body makes send_api_request succeed,
recording exactly the request. -/
theorem sendApiRequest_ok (env : VmEnv) (vm : Vm) (route method : String) (body : RequestBody)
    (hs : httpStatusIsSuccess (env.httpResponse vm.apiRequestCount).status = true)
    (hb : responseBodyIsBlank (env.httpResponse vm.apiRequestCount).body = true) :
    sendApiRequest env vm route method body =
      (.ok (), vm.addEffect (.ApiRequest { route := route, method := method, body := body })) := by
  simp [sendApiRequest, sendApiRequestInternal, hs, hb]

/-- A non-2xx response makes send_api_request fail with the received
status and fault message, still recording the request. -/
theorem sendApiRequest_fail (env : VmEnv) (vm : Vm) (route method : String) (body : RequestBody)
    (hs : httpStatusIsSuccess (env.httpResponse vm.apiRequestCount).status = false) :
    sendApiRequest env vm route method body =
      (.error (.ReceivedErrorResponse (env.httpResponse vm.apiRequestCount).status
        (env.httpResponse vm.apiRequestCount).faultMessage),
       vm.addEffect (.ApiRequest { route := route, method := method, body := body })) := by
  simp [sendApiRequest, sendApiRequestInternal, hs]

/-- C2: for a New-variant configuration booted via API calls with one
drive, one network interface and no optional devices, the boot sequence
sends exactly PUT /boot-source, PUT /drives/d0, PUT /machine-config,
PUT /network-interfaces/n0 and PUT /actions with InstanceStart, in that
order, when every response is 2xx with an empty body; and the first
non-2xx response aborts the sequence with ReceivedErrorResponse
carrying the status and fault message, without issuing any later
request. -/
theorem c2_new_boot_api_order (kernel d0 n0 : String) (env : VmEnv) (vm : Vm)
    (hvm : vm.effects = []) :
    ((∀ i, i < 5 →
        httpStatusIsSuccess (env.httpResponse i).status = true ∧
        responseBodyIsBlank (env.httpResponse i).body = true) →
      initNew env vm (minimalNewConfiguration kernel d0 n0) =
        (.ok (), { vm with effects := (minimalBootRequests d0 n0).map VmEffect.ApiRequest })) ∧
    (∀ k, k < 5 →
      (∀ i, i < k →
        httpStatusIsSuccess (env.httpResponse i).status = true ∧
        responseBodyIsBlank (env.httpResponse i).body = true) →
      httpStatusIsSuccess (env.httpResponse k).status = false →
      initNew env vm (minimalNewConfiguration kernel d0 n0) =
        (.error (.ReceivedErrorResponse (env.httpResponse k).status
          (env.httpResponse k).faultMessage),
         { vm with effects :=
            ((minimalBootRequests d0 n0).take (k + 1)).map VmEffect.ApiRequest })) := by
  obtain ⟨ps, ip, st, ocd, eff⟩ := vm
  simp only at hvm
  subst hvm
  constructor
  · intro hall
    have h0 := hall 0 (by omega)
    have h1 := hall 1 (by omega)
    have h2 := hall 2 (by omega)
    have h3 := hall 3 (by omega)
    have h4 := hall 4 (by omega)
    simp [initNew, apiStep, sendDrivePuts, sendNetworkInterfacePuts, sendApiRequest,
      sendApiRequestInternal, Vm.addEffect, Vm.apiRequestCount, minimalNewConfiguration,
      minimalBootRequests, h0.1, h0.2, h1.1, h1.2, h2.1, h2.2, h3.1, h3.2, h4.1, h4.2]
  · intro k hk hprev hfail
    interval_cases k
    · simp [initNew, apiStep, sendDrivePuts, sendNetworkInterfacePuts, sendApiRequest,
        sendApiRequestInternal, Vm.addEffect, Vm.apiRequestCount, minimalNewConfiguration,
        minimalBootRequests, hfail]
    · have h0 := hprev 0 (by omega)
      simp [initNew, apiStep, sendDrivePuts, sendNetworkInterfacePuts, sendApiRequest,
        sendApiRequestInternal, Vm.addEffect, Vm.apiRequestCount, minimalNewConfiguration,
        minimalBootRequests, h0.1, h0.2, hfail]
    · have h0 := hprev 0 (by omega)
      have h1 := hprev 1 (by omega)
      simp [initNew, apiStep, sendDrivePuts, sendNetworkInterfacePuts, sendApiRequest,
        sendApiRequestInternal, Vm.addEffect, Vm.apiRequestCount, minimalNewConfiguration,
        minimalBootRequests, h0.1, h0.2, h1.1, h1.2, hfail]
    · have h0 := hprev 0 (by omega)
      have h1 := hprev 1 (by omega)
      have h2 := hprev 2 (by omega)
      simp [initNew, apiStep, sendDrivePuts, sendNetworkInterfacePuts, sendApiRequest,
        sendApiRequestInternal, Vm.addEffect, Vm.apiRequestCount, minimalNewConfiguration,
        minimalBootRequests, h0.1, h0.2, h1.1, h1.2, h2.1, h2.2, hfail]
    · have h0 := hprev 0 (by omega)
      have h1 := hprev 1 (by omega)
      have h2 := hprev 2 (by omega)
      have h3 := hprev 3 (by omega)
      simp [initNew, apiStep, sendDrivePuts, sendNetworkInterfacePuts, sendApiRequest,
        sendApiRequestInternal, Vm.addEffect, Vm.apiRequestCount, minimalNewConfiguration,
        minimalBootRequests, h0.1, h0.2, h1.1, h1.2, h2.1, h2.2, h3.1, h3.2, hfail]

/-- C2 witness: the boot-order theorem applied to the concrete sample
environment in which every response is 200 with an empty body. -/
theorem c2_new_boot_api_order_witness :
    initNew allOkEnv runningTestVm (minimalNewConfiguration "/opt/kernel.bin" "d0" "n0") =
      (.ok (), { runningTestVm with
        effects := (minimalBootRequests "d0" "n0").map VmEffect.ApiRequest }) :=
  (c2_new_boot_api_order "/opt/kernel.bin" "d0" "n0" allOkEnv runningTestVm rfl).1
    (fun _ _ => ⟨rfl, rfl⟩)

end Fctools
